/-
  Verification of the FinSight signal-production and learning loop.

  Shallow embedding of the core components of the repository:
  `detection/detector.py`, `detection/real_detector.py`,
  `agents/enhanced_agent.py`, `learning/causal_learner.py`,
  `tracking/outcome_tracker.py`, and the constants of `config.py`.

  Python floats are modelled as real numbers (`ℝ`) where the source divides
  or takes square roots / exponentials, and as rationals (`ℚ`) where only
  field-free arithmetic and comparisons occur.
-/
import Mathlib

namespace FinSight

/-! ## Severity (config.py `Severity`) -/

/-- The `Severity` enumeration of `config.py`. -/
inductive Severity where
  | low
  | medium
  | high
  | critical
deriving DecidableEq, Repr

/-- Rank of a severity under the order low < medium < high < critical. -/
def sevRank : Severity → ℕ
  | .low => 0
  | .medium => 1
  | .high => 2
  | .critical => 3

/-- `AnomalyDetector._z_to_severity` (detector.py lines 168-177):
`z ≥ 5 ⇒ critical`, `z ≥ 4 ⇒ high`, `z ≥ 3 ⇒ medium`, else `low`. -/
noncomputable def zToSeverity (z : ℝ) : Severity :=
  if z ≥ 5 then .critical
  else if z ≥ 4 then .high
  else if z ≥ 3 then .medium
  else .low

/-- The severity map exactly as the spec words it:
`z < 3 ⇒ low`, `z < 4 ⇒ medium`, `z < 5 ⇒ high`, `z ≥ 5 ⇒ critical`.
Written from the spec for comparison with the source maps. -/
noncomputable def specSeverity (z : ℝ) : Severity :=
  if z < 3 then .low
  else if z < 4 then .medium
  else if z < 5 then .high
  else .critical

/-! ## RealAnomalyDetector (real_detector.py) -/

/-- The `zscores` dict produced by `RealAnomalyDetector.calculate_zscores`:
volume, price and range z-scores plus the 0/1 breakout flags. -/
structure RealZScores where
  volume : ℝ
  price : ℝ
  range : ℝ
  breakout_high : Bool
  breakout_low : Bool

/-- The anomaly dict returned by `RealAnomalyDetector.detect_anomaly`. -/
structure RealAnomaly where
  pattern_type : String
  patterns_detected : List String
  max_zscore : ℝ
  severity : Severity
  zscores : RealZScores

/-- The running `(anomalies, max_zscore, pattern_type)` state built by
`RealAnomalyDetector.detect_anomaly` (real_detector.py lines 170-204), with
the thresholds fixed to the constructor defaults
`volume_threshold = price_threshold = range_threshold = 2.0`.  Each `let`
step mirrors one `if` block of the source, in the source's order. -/
noncomputable def realDetectState (zs : RealZScores) :
    List String × ℝ × Option String :=
  -- volume spike check
  let st0 : List String × ℝ × Option String := ([], 0, none)
  let st1 :=
    if |zs.volume| ≥ 2 then
      (st0.1 ++ ["volume_spike"],
        if |zs.volume| > st0.2.1 then (|zs.volume|, some "volume_spike") else st0.2)
    else st0
  -- price momentum check
  let st2 :=
    if |zs.price| ≥ 2 then
      (st1.1 ++ ["price_momentum"],
        if |zs.price| > st1.2.1 then (|zs.price|, some "price_momentum") else st1.2)
    else st1
  -- volatility surge check
  let st3 :=
    if |zs.range| ≥ 2 then
      (st2.1 ++ ["volatility_surge"],
        if |zs.range| > st2.2.1 then (|zs.range|, some "volatility_surge") else st2.2)
    else st2
  -- breakout with volume confirmation
  let st4 :=
    if zs.breakout_high ∧ zs.volume > 1.5 then
      (st3.1 ++ ["breakout_high"], (max st3.2.1 zs.volume, some "breakout_high"))
    else st3
  if zs.breakout_low ∧ zs.volume > 1.5 then
    (st4.1 ++ ["breakout_low"], (max st4.2.1 zs.volume, some "breakout_low"))
  else st4

/-- The severity map inlined in `RealAnomalyDetector.detect_anomaly`
(real_detector.py lines 209-217), factored out as a function of the
maximal z-score. -/
noncomputable def realZToSeverity (m : ℝ) : Severity :=
  if m ≥ 4 then .critical
  else if m ≥ 3 then .high
  else if m ≥ 2.5 then .medium
  else .low

/-- `RealAnomalyDetector.detect_anomaly` (real_detector.py lines 164-225):
`None` when no check fired, otherwise the anomaly dict with the severity
computed from the maximal z-score. -/
noncomputable def realDetectAnomaly (zs : RealZScores) : Option RealAnomaly :=
  let st := realDetectState zs
  if st.1 = [] then none
  else some ⟨(st.2.2).getD "", st.1, st.2.1, realZToSeverity st.2.1, zs⟩

/-! ## Outcome evaluation (tracking/outcome_tracker.py) -/

/-- `OutcomeTracker._evaluate_agent` (outcome_tracker.py lines 137-155).
The source compares the decision against the string `"IGNORE"`; any other
decision string takes the user-action branch. -/
def evaluateAgent (agent_decision user_action : String)
    (was_profitable : Bool) : Bool :=
  if agent_decision = "IGNORE" then
    !was_profitable
  else
    if user_action = "reviewed" ∨ user_action = "traded" then
      was_profitable
    else
      !was_profitable

/-- `config.PROFITABLE_THRESHOLD = 0.005`. -/
def PROFITABLE_THRESHOLD : ℚ := 5 / 1000

/-- Python `max(l)` for a nonempty list, and the `if returns else 0`
default of `_track_outcome` for the empty one. -/
def listMaxD0 : List ℚ → ℚ
  | [] => 0
  | x :: xs => xs.foldl max x

/-- The profitability classification of `OutcomeTracker._track_outcome`
(outcome_tracker.py lines 89-99): the per-interval forward returns that were
actually recorded (a `none` entry is an interval whose price fetch failed),
`best_return = max(returns.values()) if returns else 0`,
`was_profitable = best_return ≥ PROFITABLE_THRESHOLD`. -/
def wasProfitable (returns : List (Option ℚ)) : Bool :=
  let recorded := returns.reduceOption
  let best := listMaxD0 recorded
  best ≥ PROFITABLE_THRESHOLD

/-! ## Causal learner (learning/causal_learner.py)

String fields that interpolate numeric values in the source (explanations,
reasons) are modelled by their constant template text; no claim depends on
them. -/

/-- `MarketRegime` (causal_learner.py lines 21-29). -/
inductive MarketRegime where
  | trending_up
  | trending_down
  | ranging
  | high_volatility
  | low_volatility
  | breakout
  | unknown
deriving DecidableEq, Repr

/-- The `.value` string of a `MarketRegime` member. -/
def MarketRegime.value : MarketRegime → String
  | .trending_up => "trending_up"
  | .trending_down => "trending_down"
  | .ranging => "ranging"
  | .high_volatility => "high_volatility"
  | .low_volatility => "low_volatility"
  | .breakout => "breakout"
  | .unknown => "unknown"

/-- `TimeHorizon` (causal_learner.py lines 32-37). -/
inductive TimeHorizon where
  | scalp
  | intraday
  | swing
  | positional
deriving DecidableEq, Repr

/-- The `.value` string of a `TimeHorizon` member. -/
def TimeHorizon.value : TimeHorizon → String
  | .scalp => "scalp"
  | .intraday => "intraday"
  | .swing => "swing"
  | .positional => "positional"

/-- `RegimeContext` (causal_learner.py lines 49-59); the `source` field is
carried as its `.value` string. -/
structure RegimeContext where
  regime : MarketRegime
  horizon : TimeHorizon
  source : String
  volatility_percentile : ℚ
  trend_strength : ℚ
  volume_regime : String
  time_of_day : String
  day_of_week : ℕ

/-- The in-memory state of `CausalLearner` (causal_learner.py lines
243-260): Python dicts become association lists.  `context_success` stores
the floats `1.0`/`0.0` appended by `record_outcome`; `regime_patterns` and
`temporal_patterns` store booleans, as in the source. -/
structure CausalLearner where
  decay_halflife : ℚ
  context_success : List (String × List ℚ)
  regime_patterns : List (String × List Bool)
  temporal_patterns : List (String × List Bool)

/-- Python `d.get(k)` on an association list. -/
def lookup {α : Type} (m : List (String × α)) (k : String) : Option α :=
  (m.find? (fun p => p.1 == k)).map (fun p => p.2)

/-- Python `d[k]` append-or-create used by `record_outcome`. -/
def appendAt {α : Type} (m : List (String × List α)) (k : String) (v : α) :
    List (String × List α) :=
  match lookup m k with
  | some _ => m.map (fun p => if p.1 == k then (p.1, p.2 ++ [v]) else p)
  | none => m ++ [(k, [v])]

/-- `CausalLearner.record_outcome` (causal_learner.py lines 262-288),
restricted to the fields it reads from the `CausalOutcome`: the pattern
type, the context, and the success flag. -/
def recordOutcome (L : CausalLearner) (pattern_type : String)
    (ctx : RegimeContext) (success : Bool) : CausalLearner :=
  let context_key := pattern_type ++ "|" ++ ctx.regime.value ++ "|" ++ ctx.horizon.value
  let regime_key := pattern_type ++ "|" ++ ctx.regime.value
  let temporal_key := pattern_type ++ "|" ++ ctx.time_of_day ++ "|" ++ toString ctx.day_of_week
  { L with
    context_success := appendAt L.context_success context_key (if success then 1 else 0)
    regime_patterns := appendAt L.regime_patterns regime_key success
    temporal_patterns := appendAt L.temporal_patterns temporal_key success }

/-- The positional weights of `CausalLearner._weighted_mean`
(causal_learner.py lines 355-358): `exp(-i / (n * 0.5))` for `i` in
`range(n)`, reversed so the newest (last) value has weight `exp 0 = 1`. -/
noncomputable def weightedMeanWeights (n : ℕ) : List ℝ :=
  ((List.range n).map (fun i : ℕ => Real.exp (-(i : ℝ) / ((n : ℝ) * 0.5)))).reverse

/-- `CausalLearner._weighted_mean` (causal_learner.py lines 350-360):
`np.average` of the values under the reversed positional weights, i.e. the
weight-normalised sum.  The empty list returns the 0.5 prior.  Note: no
timestamps are involved. -/
noncomputable def weightedMean (values : List ℚ) : ℝ :=
  if values = [] then 0.5
  else
    (List.zipWith (fun w v => w * v) (weightedMeanWeights values.length)
      (values.map (fun q : ℚ => (q : ℝ)))).sum /
      (weightedMeanWeights values.length).sum

/-- The `factors` list assembled by `CausalLearner.get_context_confidence`
(causal_learner.py lines 311-337): the context-key factor needs at least 5
recorded outcomes, the regime-key factor at least 3.  The temporal-key
success rate is computed by the source only to add explanation text and is
never appended to `factors`. -/
noncomputable def contextFactors (L : CausalLearner) (pattern_type : String)
    (ctx : RegimeContext) : List ℝ :=
  let context_key := pattern_type ++ "|" ++ ctx.regime.value ++ "|" ++ ctx.horizon.value
  let regime_key := pattern_type ++ "|" ++ ctx.regime.value
  (match lookup L.context_success context_key with
   | some outcomes =>
     if outcomes.length ≥ 5 then [weightedMean outcomes] else []
   | none => []) ++
  (match lookup L.regime_patterns regime_key with
   | some outcomes =>
     if outcomes.length ≥ 3 then
       [weightedMean (outcomes.map (fun o : Bool => if o then (1 : ℚ) else 0))]
     else []
   | none => [])

/-- `CausalLearner.get_context_confidence` (causal_learner.py lines
290-348): with no factors, the multiplier 1.0; otherwise the geometric mean
`exp(mean(log(factors + 0.1)))`. -/
noncomputable def getContextConfidence (L : CausalLearner)
    (pattern_type : String) (ctx : RegimeContext) : ℝ × String :=
  let factors := contextFactors L pattern_type ctx
  if factors = [] then (1.0, "No historical context available")
  else
    (Real.exp (((factors.map (fun f => Real.log (f + 0.1))).sum) / factors.length),
      "Based on historical context")

/-- `CausalLearner.suggest_threshold_adjustment` (causal_learner.py lines
395-424): lower by 10% above confidence 1.2, raise by 15% below 0.8, then
clamp to [2.0, 5.0]. -/
noncomputable def suggestThresholdAdjustment (L : CausalLearner)
    (pattern_type : String) (ctx : RegimeContext)
    (current_threshold : ℝ) : ℝ × String :=
  let c := getContextConfidence L pattern_type ctx
  let nt : ℝ × String :=
    if c.1 > 1.2 then
      (current_threshold * 0.9, "Lowering threshold in favorable context: " ++ c.2)
    else if c.1 < 0.8 then
      (current_threshold * 1.15, "Raising threshold in unfavorable context: " ++ c.2)
    else (current_threshold, "Threshold unchanged - neutral context")
  (max 2 (min 5 nt.1), nt.2)

/-- `ConfidenceDecay.decay_weight` (causal_learner.py lines 442-454):
`weight = 0.5 ^ (days_ago / halflife)`, a real power. -/
noncomputable def decayWeight (halflife : ℝ) (days_ago : ℝ) : ℝ :=
  (0.5 : ℝ) ^ (days_ago / halflife)

/-- `ConfidenceDecay.weighted_success_rate` (causal_learner.py lines
456-486).  An outcome is modelled by its age in days (the source computes
`days_ago` from the stored timestamp and the wall clock) and its success
flag. -/
noncomputable def weightedSuccessRate (halflife : ℝ)
    (outcomes : List (ℝ × Bool)) : ℝ :=
  if outcomes = [] then 0.5
  else if (outcomes.map (fun o => decayWeight halflife o.1)).sum = 0 then 0.5
  else
    (outcomes.map
      (fun o => decayWeight halflife o.1 * (if o.2 then (1 : ℝ) else 0))).sum /
      (outcomes.map (fun o => decayWeight halflife o.1)).sum

/-- All stored `context_success` floats lie in [0,1].  `record_outcome`
only ever appends `1.0` or `0.0`, so every reachable learner state
satisfies this. -/
def ValuesBounded (L : CausalLearner) : Prop :=
  ∀ p ∈ L.context_success, ∀ v ∈ p.2, 0 ≤ v ∧ v ≤ 1

/-- The empty learner state produced by `CausalLearner.__init__` with the
default 30-day half-life. -/
def emptyLearner : CausalLearner := ⟨30, [], [], []⟩

/-- A neutral context fixture used by concrete witnesses: the
`RegimeDetector._default_context()` of causal_learner.py lines 193-204. -/
def defaultContext : RegimeContext :=
  ⟨.unknown, .intraday, "technical", 50, 0, "normal", "mid", 0⟩

/-! ## Enhanced agent (agents/enhanced_agent.py) -/

/-- `PatternQuality` (config.py lines 260-269). -/
structure PatternQuality where
  pattern_type : String
  symbol : String
  accuracy : ℝ
  review_rate : ℝ
  trade_rate : ℝ
  avg_return : ℝ
  sample_size : ℕ
  agent_accuracy : ℝ

/-- `CompositeConfidence` (enhanced_agent.py lines 73-116).  The
`breakdown` string assembled by `_generate_breakdown` interpolates numbers
and is not modelled; no claim depends on it. -/
structure CompositeConfidence where
  statistical : ℝ
  behavioral : ℝ
  regime : ℝ
  data_quality : ℝ
  uncertainty : ℝ
  composite : ℝ

/-- The `__post_init__` computation of `CompositeConfidence`
(enhanced_agent.py lines 95-116): the 0.25/0.30/0.25/0.20 weighted sum
scaled by `1 - uncertainty * 0.5`. -/
noncomputable def mkCompositeConfidence
    (statistical behavioral regime data_quality uncertainty : ℝ) :
    CompositeConfidence :=
  ⟨statistical, behavioral, regime, data_quality, uncertainty,
    (0.25 * statistical + 0.30 * behavioral + 0.25 * regime +
      0.20 * data_quality) * (1 - uncertainty * 0.5)⟩

/-- Step 1 of `ConfidenceCalculator.calculate` (enhanced_agent.py lines
179-181): z-score normalised and clamped to [0,1]. -/
noncomputable def calcStatistical (z_score : ℝ) : ℝ :=
  min 1 (max 0 ((z_score - 1) / 4))

/-- Step 2 of `ConfidenceCalculator.calculate` (lines 183-192): behavioral
confidence from user history, 0.5 prior below 5 samples or without
history. -/
noncomputable def calcBehavioral (history : Option PatternQuality) : ℝ :=
  match history with
  | some h =>
    if h.sample_size ≥ 5 then
      0.6 * h.accuracy + 0.2 * h.trade_rate + 0.2 * h.agent_accuracy
    else 0.5
  | none => 0.5

/-- Step 3 of `ConfidenceCalculator.calculate` (lines 194-196): the causal
context-confidence multiplier clamped to [0,1]. -/
noncomputable def calcRegime (L : CausalLearner) (pattern_type : String)
    (ctx : RegimeContext) : ℝ :=
  min 1 (max 0 (getContextConfidence L pattern_type ctx).1)

/-- Step 4 of `ConfidenceCalculator.calculate` (lines 198-206): data
quality from the number of bars. -/
noncomputable def calcDataQuality (data_points : ℕ) : ℝ :=
  if data_points ≥ 50 then 1.0
  else if data_points ≥ 30 then 0.8
  else if data_points ≥ 20 then 0.6
  else 0.4

/-- Step 5 of `ConfidenceCalculator.calculate` (lines 208-227): the
accumulated uncertainty penalty, clamped to at most 1. -/
noncomputable def calcUncertainty (ctx : RegimeContext)
    (history : Option PatternQuality) (conflicting_signals : ℕ) : ℝ :=
  min 1
    ((if ctx.regime = MarketRegime.unknown then 0.2 else 0) +
      (match history with
       | none => 0.15
       | some h => if h.sample_size < 10 then 0.15 else 0) +
      (if conflicting_signals > 0 then
        0.1 * ((min conflicting_signals 3 : ℕ) : ℝ) else 0) +
      (if ctx.volatility_percentile > 80 then 0.1 else 0))

/-- `ConfidenceCalculator.calculate` (enhanced_agent.py lines 156-235). -/
noncomputable def confidenceCalculate (L : CausalLearner) (z_score : ℝ)
    (pattern_type : String) (ctx : RegimeContext)
    (history : Option PatternQuality)
    (data_points conflicting_signals : ℕ) : CompositeConfidence :=
  mkCompositeConfidence (calcStatistical z_score) (calcBehavioral history)
    (calcRegime L pattern_type ctx) (calcDataQuality data_points)
    (calcUncertainty ctx history conflicting_signals)

/-- `DecisionState` (enhanced_agent.py lines 38-47). -/
inductive DecisionState where
  | IGNORE
  | MONITOR
  | REVIEW
  | EXECUTE
deriving DecidableEq, Repr

/-- `RejectionReason` (enhanced_agent.py lines 50-57). -/
inductive RejectionReason where
  | low_confidence
  | unfavorable_regime
  | poor_history
  | insufficient_data
  | conflicting_signals
  | timing
deriving DecidableEq, Repr

/-- `EscalationReason` (enhanced_agent.py lines 60-66). -/
inductive EscalationReason where
  | high_uncertainty
  | regime_change
  | unusual_pattern
  | conflicting_evidence
  | first_occurrence
deriving DecidableEq, Repr

/-- `EnhancedDecision` (enhanced_agent.py lines 242-263), with the same
field defaults; the `story` dict is attached later by `decide`, not by
`_make_decision`, and is not modelled. -/
structure EnhancedDecision where
  state : DecisionState
  confidence : CompositeConfidence
  reason : String
  risk_assessment : String
  rejected : Bool := false
  rejection_reason : Option RejectionReason := none
  escalated : Bool := false
  escalation_reason : Option EscalationReason := none
  requested_more_data : Bool := false
  invalidation : String := ""

/-- `EnhancedAgent._opposite_regime` (enhanced_agent.py lines 527-537);
the dict `.get(regime, "unknown")` default covers `unknown`. -/
def oppositeRegime : MarketRegime → String
  | .trending_up => "trending_down"
  | .trending_down => "trending_up"
  | .high_volatility => "low_volatility"
  | .low_volatility => "high_volatility"
  | .ranging => "breakout"
  | .breakout => "ranging"
  | .unknown => "unknown"

/-- `EnhancedAgent._assess_risk` (enhanced_agent.py lines 506-525). -/
noncomputable def assessRisk (z_score : ℝ) (ctx : RegimeContext) : String :=
  let risks :=
    (if ctx.volatility_percentile > 70 then ["high volatility environment"] else []) ++
    (if ctx.volume_regime = "low" then ["low volume may cause slippage"] else []) ++
    (if ctx.time_of_day = "open" ∨ ctx.time_of_day = "close" then
      [ctx.time_of_day ++ " session - higher noise"] else []) ++
    (if z_score > 5 then ["extreme signal may indicate data issue"] else [])
  if risks = [] then "Standard risk profile"
  else "Risks: " ++ String.intercalate ", " risks

section MakeDecision

open Classical

/-- `EnhancedAgent._make_decision` (enhanced_agent.py lines 382-504).
`z` and `pattern` are the `anomaly.get("z_score", 2.0)` and
`anomaly.get("type", "unknown")` reads of the source; the rejection and
escalation checks, then the EXECUTE / REVIEW / MONITOR / IGNORE ladder, in
the source's order.  The nested regime check of the source
(`if regime != UNKNOWN: ... if conf < 0.4 and z < 3.5`) is flattened into
one conjunction. -/
noncomputable def makeDecision (L : CausalLearner) (z : ℝ) (pattern : String)
    (confidence : CompositeConfidence) (ctx : RegimeContext)
    (history : Option PatternQuality) : EnhancedDecision :=
  -- Reject: poor historical performance
  if (match history with
      | some h => h.sample_size ≥ 15 ∧ h.accuracy < 0.25
      | none => False) then
    { state := .IGNORE, confidence := confidence,
      reason := "Rejected: poor accuracy over samples",
      risk_assessment := "Low risk - historically unreliable pattern",
      rejected := true, rejection_reason := some .poor_history,
      invalidation := "Would reconsider if next 5 signals show >50% success" }
  -- Reject: unfavorable regime with low z-score
  else if ctx.regime ≠ MarketRegime.unknown ∧
      (getContextConfidence L pattern ctx).1 < 0.4 ∧ z < 3.5 then
    { state := .IGNORE, confidence := confidence,
      reason := "Rejected: pattern underperforms in this regime",
      risk_assessment := "Low risk - regime unfavorable",
      rejected := true, rejection_reason := some .unfavorable_regime,
      invalidation := "Would reconsider if regime changes or z-score exceeds 4.0" }
  -- Reject: insufficient data
  else if confidence.data_quality < 0.5 then
    { state := .IGNORE, confidence := confidence,
      reason := "Rejected: Insufficient data for reliable signal",
      risk_assessment := "Unknown risk - data quality too low",
      rejected := true, rejection_reason := some .insufficient_data,
      requested_more_data := true,
      invalidation := "Need at least 30 data points for analysis" }
  -- Escalate: high uncertainty
  else if confidence.uncertainty ≥ 0.4 then
    { state := .REVIEW, confidence := confidence,
      reason := "Escalated: High uncertainty",
      risk_assessment := "Uncertain - human judgment needed",
      escalated := true, escalation_reason := some .high_uncertainty,
      invalidation := "Uncertainty factors listed in breakdown" }
  -- Escalate: first occurrence of this context combination
  else if (lookup L.regime_patterns (pattern ++ "|" ++ ctx.regime.value)).isNone then
    { state := .REVIEW, confidence := confidence,
      reason := "Escalated: first time seeing this pattern in this regime",
      risk_assessment := "Unknown - no historical precedent",
      escalated := true, escalation_reason := some .first_occurrence,
      invalidation := "Need human input to establish baseline" }
  -- EXECUTE: very high confidence + favorable conditions
  else if confidence.composite ≥ 0.75 ∧ z ≥ 4.0 then
    { state := .EXECUTE, confidence := confidence,
      reason := "High confidence signal",
      risk_assessment := assessRisk z ctx,
      invalidation := "Invalid if price retraces >2% or regime shifts to " ++
        oppositeRegime ctx.regime }
  -- REVIEW: medium-high confidence
  else if confidence.composite ≥ 0.55 then
    { state := .REVIEW, confidence := confidence,
      reason := "Worth reviewing",
      risk_assessment := assessRisk z ctx,
      invalidation := "Skip if volume normalizes or z-score drops below 2.5" }
  -- MONITOR: low-medium confidence but worth watching
  else if confidence.composite ≥ 0.35 ∧ z ≥ 2.5 then
    { state := .MONITOR, confidence := confidence,
      reason := "Added to watchlist",
      risk_assessment := "Low priority - monitor for confirmation",
      invalidation := "Upgrade to REVIEW if z-score exceeds 3.5" }
  -- IGNORE: low confidence
  else
    { state := .IGNORE, confidence := confidence,
      reason := "Below threshold",
      risk_assessment := "Minimal risk in ignoring",
      invalidation := "Would reconsider with stronger signal" }

end MakeDecision

/-- Witness fixture: a composite confidence computed by the
`__post_init__` rule whose composite is 0.8. -/
noncomputable def executeConfidence : CompositeConfidence :=
  mkCompositeConfidence 0.8 0.5 1 1 0

/-- Witness fixture: a learner holding three recorded regime outcomes for
`volume_spike` in the `unknown` regime. -/
def seededLearner : CausalLearner :=
  ⟨30, [], [("volume_spike|unknown", [true, true, false])], []⟩

/-! ## Anomaly detector (detection/detector.py)

The detector's description strings interpolate formatted numbers; they are
modelled by their constant template text.  `datetime.now()` and
`uuid.uuid4()` — the ambient effects read by `Anomaly.create` — are made
explicit inputs `now` and `uid`. -/

/-- One OHLCV bar; the detector reads `high`, `low`, `close` and
`volume`.  `open_` stands for the `open` column (a Lean keyword). -/
structure Bar where
  open_ : ℝ
  high : ℝ
  low : ℝ
  close : ℝ
  volume : ℝ
deriving Inhabited

/-- The `volume_spike` entry of `config.DETECTION_THRESHOLDS`. -/
structure VolumeSpikeThresholds where
  z_score : ℝ
  min_volume : ℝ
  min_data_points : ℕ

/-- The `price_momentum` entry of `config.DETECTION_THRESHOLDS`. -/
structure PriceMomentumThresholds where
  z_score : ℝ
  min_change : ℝ
  min_data_points : ℕ

/-- The `volatility` entry of `config.DETECTION_THRESHOLDS`. -/
structure VolatilityThresholds where
  z_score : ℝ
  min_data_points : ℕ

/-- `config.DETECTION_THRESHOLDS` (config.py lines 80-95). -/
structure DetectionThresholds where
  volume_spike : VolumeSpikeThresholds
  price_momentum : PriceMomentumThresholds
  volatility : VolatilityThresholds

/-- The default `config.DETECTION_THRESHOLDS` values. -/
noncomputable def defaultThresholds : DetectionThresholds :=
  ⟨⟨3.0, 1000000, 20⟩, ⟨2.5, 0.015, 20⟩, ⟨2.5, 30⟩⟩

/-- `np.mean`. -/
noncomputable def npMean (l : List ℝ) : ℝ := l.sum / l.length

/-- `np.std` (population standard deviation). -/
noncomputable def npStd (l : List ℝ) : ℝ :=
  Real.sqrt (npMean (l.map (fun x => (x - npMean l) ^ 2)))

/-- Python `round(x, 2)` (the tie at half is immaterial to the claims). -/
noncomputable def round2 (x : ℝ) : ℝ := ((round (x * 100) : ℤ) : ℝ) / 100

/-- The `Anomaly` dataclass of config.py lines 222-249. -/
structure Anomaly where
  id : String
  symbol : String
  type : String
  severity : Severity
  z_score : ℝ
  price : ℝ
  volume : ℤ
  detected_at : ℤ
  description : String

/-- The argument tuple a detector test passes to `Anomaly.create`:
everything except the ambient clock and uuid. -/
structure AnomalyArgs where
  symbol : String
  type : String
  severity : Severity
  z_score : ℝ
  price : ℝ
  volume : ℤ
  description : String

/-- `Anomaly.create` (config.py lines 235-249): the id string interpolates
the creation instant and a fresh uuid fragment, and `detected_at` is the
creation instant — both ambient reads, made explicit here. -/
def Anomaly.create (now : ℤ) (uid : String) (a : AnomalyArgs) : Anomaly :=
  ⟨a.symbol ++ "_" ++ a.type ++ "_" ++ toString now ++ "_" ++ uid,
    a.symbol, a.type, a.severity, a.z_score, a.price, a.volume, now,
    a.description⟩

/-- The simple-return series `data["close"].pct_change().dropna()`
of `_detect_price_momentum`. -/
noncomputable def pctReturns (data : List Bar) : List ℝ :=
  let closes := data.map (fun b => b.close)
  (closes.zip closes.tail).map (fun p => (p.2 - p.1) / p.1)

/-- The intraday ranges `(high - low) / close` of
`_detect_volatility_surge`. -/
noncomputable def rangePcts (data : List Bar) : List ℝ :=
  data.map (fun b => (b.high - b.low) / b.close)

section DetectorTests

open Classical

/-- The guard chain and `Anomaly.create` arguments of
`AnomalyDetector._detect_volume_spike` (detector.py lines 62-92): length
guard, zero-σ / volume-floor guard (checked before any division by σ),
then the z-score test.  Severity is computed from the raw z, the stored
z-score is rounded to 2 places. -/
noncomputable def detectVolumeSpikeArgs (cfg : DetectionThresholds)
    (symbol : String) (data : List Bar) : Option AnomalyArgs :=
  if data.length < cfg.volume_spike.min_data_points then none
  else
    let volumes := data.map (fun b => b.volume)
    let current_vol := volumes.getLast?.getD 0
    let mean_vol := npMean volumes.dropLast
    let std_vol := npStd volumes.dropLast
    if std_vol = 0 ∨ current_vol < cfg.volume_spike.min_volume then none
    else
      let z_score := (current_vol - mean_vol) / std_vol
      if z_score ≥ cfg.volume_spike.z_score then
        some ⟨symbol, "volume_spike", zToSeverity z_score, round2 z_score,
          (data.getLast?.getD default).close, ⌊current_vol⌋,
          "Volume above average"⟩
      else none

/-- The guard chain and `Anomaly.create` arguments of
`AnomalyDetector._detect_price_momentum` (detector.py lines 94-131):
length guard, minimum-change guard, zero-σ guard (before the division),
then the |z| test. -/
noncomputable def detectPriceMomentumArgs (cfg : DetectionThresholds)
    (symbol : String) (data : List Bar) : Option AnomalyArgs :=
  if data.length < cfg.price_momentum.min_data_points then none
  else
    let returns := pctReturns data
    let current_return := returns.getLast?.getD 0
    if |current_return| < cfg.price_momentum.min_change then none
    else
      let mean_ret := npMean returns.dropLast
      let std_ret := npStd returns.dropLast
      if std_ret = 0 then none
      else
        let z_score := |(current_return - mean_ret) / std_ret|
        if z_score ≥ cfg.price_momentum.z_score then
          some ⟨symbol, "price_momentum", zToSeverity z_score, round2 z_score,
            (data.getLast?.getD default).close,
            ⌊(data.getLast?.getD default).volume⌋,
            "Price moved"⟩
        else none

/-- The guard chain and `Anomaly.create` arguments of
`AnomalyDetector._detect_volatility_surge` (detector.py lines 133-166):
length guard, zero-σ guard (before the division), then the z test. -/
noncomputable def detectVolatilitySurgeArgs (cfg : DetectionThresholds)
    (symbol : String) (data : List Bar) : Option AnomalyArgs :=
  if data.length < cfg.volatility.min_data_points then none
  else
    let ranges := rangePcts data
    let current_range := ranges.getLast?.getD 0
    let mean_range := npMean ranges.dropLast
    let std_range := npStd ranges.dropLast
    if std_range = 0 then none
    else
      let z_score := (current_range - mean_range) / std_range
      if z_score ≥ cfg.volatility.z_score then
        some ⟨symbol, "volatility_surge", zToSeverity z_score, round2 z_score,
          (data.getLast?.getD default).close,
          ⌊(data.getLast?.getD default).volume⌋,
          "Volatility above normal"⟩
      else none

end DetectorTests

/-- `_detect_volume_spike` including the `Anomaly.create` call. -/
noncomputable def detectVolumeSpike (cfg : DetectionThresholds)
    (symbol : String) (data : List Bar) (now : ℤ) (uid : String) :
    Option Anomaly :=
  (detectVolumeSpikeArgs cfg symbol data).map (Anomaly.create now uid)

/-- `_detect_price_momentum` including the `Anomaly.create` call. -/
noncomputable def detectPriceMomentum (cfg : DetectionThresholds)
    (symbol : String) (data : List Bar) (now : ℤ) (uid : String) :
    Option Anomaly :=
  (detectPriceMomentumArgs cfg symbol data).map (Anomaly.create now uid)

/-- `_detect_volatility_surge` including the `Anomaly.create` call. -/
noncomputable def detectVolatilitySurge (cfg : DetectionThresholds)
    (symbol : String) (data : List Bar) (now : ℤ) (uid : String) :
    Option Anomaly :=
  (detectVolatilitySurgeArgs cfg symbol data).map (Anomaly.create now uid)

/-- `AnomalyDetector.detect` (detector.py lines 23-60): below 20 bars
nothing is emitted; otherwise the three tests run in order and each
contributes at most one anomaly. -/
noncomputable def detect (cfg : DetectionThresholds) (symbol : String)
    (data : List Bar) (now : ℤ) (uid : String) : List Anomaly :=
  if data.length < 20 then []
  else
    (detectVolumeSpike cfg symbol data now uid).toList ++
    (detectPriceMomentum cfg symbol data now uid).toList ++
    (detectVolatilitySurge cfg symbol data now uid).toList

/-- The per-event fields that do not depend on the ambient clock and
uuid: everything but `id` and `detected_at`. -/
def stripImpure (a : Anomaly) :
    String × String × Severity × ℝ × ℝ × ℤ × String :=
  (a.symbol, a.type, a.severity, a.z_score, a.price, a.volume, a.description)

/-- A bar with all prices 100 and the given volume, used by concrete
witnesses. -/
def constBar (v : ℝ) : Bar := ⟨100, 100, 100, 100, v⟩

/-- A 21-bar window with flat prices whose last volume is 6,000,000
against a reference of ten bars at 1,000,000 and ten at 3,000,000:
volume mean 2,000,000, volume σ 1,000,000, so volume z = 4. -/
noncomputable def spikeWindow : List Bar :=
  List.replicate 10 (constBar 1000000) ++ List.replicate 10 (constBar 3000000) ++
    [constBar 6000000]

/-- A fully constant 21-bar window: every reference series has σ = 0. -/
def flatWindow : List Bar := List.replicate 21 (constBar 5)

/-- The `Anomaly.create` arguments the volume test computes on
`spikeWindow`: z = 4, severity high, flat price 100. -/
noncomputable def spikeArgs : AnomalyArgs :=
  ⟨"TEST", "volume_spike", Severity.high, 4, 100, 6000000,
    "Volume above average"⟩

/-- The spec's determinism claim for the detector, as a proposition: the
emitted events — every field included — do not depend on the ambient
clock and uuid values read during the run. -/
def detectorPurityClaim : Prop :=
  ∀ (cfg : DetectionThresholds) (symbol : String) (data : List Bar)
    (now now' : ℤ) (uid uid' : String),
    detect cfg symbol data now uid = detect cfg symbol data now' uid'

end FinSight

namespace FinSight

/-! ## C1 theorems -/

/-- The severity map claimed by the spec, as a proposition over both
detectors: every emitted anomaly's severity is `specSeverity` of its
z-score. -/
def severityClaim : Prop :=
  (∀ z : ℝ, zToSeverity z = specSeverity z) ∧
  (∀ zs : RealZScores, ∀ a : RealAnomaly,
    realDetectAnomaly zs = some a → a.severity = specSeverity a.max_zscore)

/-- C1 counterexample: the claimed boundaries fail on
`RealAnomalyDetector.detect_anomaly`.  With a volume z-score of 4.5 the
real detector emits an anomaly with `max_zscore = 4.5` and severity
`critical`, while the claimed map sends 4.5 to `high`. -/
theorem c1_counterexample : ¬ severityClaim := by
  intro h
  have h2 := h.2 ⟨4.5, 0, 0, false, false⟩
  have hemit :
      realDetectAnomaly ⟨4.5, 0, 0, false, false⟩ =
        some ⟨"volume_spike", ["volume_spike"], 4.5, Severity.critical,
          ⟨4.5, 0, 0, false, false⟩⟩ := by
    unfold realDetectAnomaly realDetectState realZToSeverity
    norm_num [abs_of_nonneg]
  have := h2 _ hemit
  simp only [specSeverity] at this
  norm_num at this
  exact absurd this (by decide)

/-- C1 (amended): `AnomalyDetector._z_to_severity` realises exactly the
claimed boundaries (`z<3 ⇒ low`, `<4 ⇒ medium`, `<5 ⇒ high`, `≥5 ⇒
critical`), while `RealAnomalyDetector` maps the maximal z-score through the
boundaries 2.5 / 3 / 4 instead; both maps are monotone in the z-score under
low < medium < high < critical, and the real detector's severity is
`realZToSeverity` of its `max_zscore`. -/
theorem c1_severity_amended :
    (∀ z : ℝ, zToSeverity z = specSeverity z) ∧
    (∀ zs : RealZScores, ∀ a : RealAnomaly,
      realDetectAnomaly zs = some a → a.severity = realZToSeverity a.max_zscore) ∧
    (∀ z₁ z₂ : ℝ, z₁ ≤ z₂ →
      sevRank (zToSeverity z₁) ≤ sevRank (zToSeverity z₂) ∧
      sevRank (realZToSeverity z₁) ≤ sevRank (realZToSeverity z₂)) := by
  refine ⟨?_, ?_, ?_⟩
  · intro z
    unfold zToSeverity specSeverity
    split_ifs <;> first | rfl | (exfalso; linarith)
  · intro zs a h
    simp only [realDetectAnomaly] at h
    split at h
    · exact Option.noConfusion h
    · simp only [Option.some.injEq] at h
      subst h
      rfl
  · intro z₁ z₂ h
    constructor
    · unfold zToSeverity
      split_ifs <;> first | (exfalso; linarith) | decide
    · unfold realZToSeverity
      split_ifs <;> first | (exfalso; linarith) | decide

/-- C1 witness: the monotonicity part of the amended theorem applied at the
concrete pair `z₁ = 3`, `z₂ = 4.5`. -/
theorem c1_severity_amended_witness :
    sevRank (zToSeverity 3) ≤ sevRank (zToSeverity 4.5) ∧
    sevRank (realZToSeverity 3) ≤ sevRank (realZToSeverity 4.5) :=
  (c1_severity_amended.2.2 3 4.5 (by norm_num))

/-! ## C2 theorem -/

/-- C2: for any decision string of the enhanced agent's `DecisionState`
enumeration (`"IGNORE"`, `"MONITOR"`, `"REVIEW"`, `"EXECUTE"`) and any
recorded user action (`"ignored"`, `"reviewed"`, `"traded"`),
`_evaluate_agent` returns: for `IGNORE`, `¬was_profitable`; otherwise
`(user_action ∈ {reviewed, traded} ∧ was_profitable) ∨
 (user_action = ignored ∧ ¬was_profitable)`. -/
theorem c2_evaluate_agent (d ua : String) (p : Bool)
    (hd : d = "IGNORE" ∨ d = "MONITOR" ∨ d = "REVIEW" ∨ d = "EXECUTE")
    (hua : ua = "ignored" ∨ ua = "reviewed" ∨ ua = "traded") :
    (evaluateAgent d ua p = true ↔
      (if d = "IGNORE" then p = false
       else ((ua = "reviewed" ∨ ua = "traded") ∧ p = true) ∨
            (ua = "ignored" ∧ p = false))) := by
  rcases hd with h | h | h | h <;> subst h <;>
    rcases hua with h' | h' | h' <;> subst h' <;>
      cases p <;> simp [evaluateAgent]

/-- C2 witness: a `MONITOR` decision with user action `traded` on a
profitable outcome is evaluated as correct. -/
theorem c2_evaluate_agent_witness :
    evaluateAgent "MONITOR" "traded" true = true ↔
      (if ("MONITOR" : String) = "IGNORE" then (true : Bool) = false
       else ((("traded" : String) = "reviewed" ∨ ("traded" : String) = "traded") ∧ (true : Bool) = true) ∨
            (("traded" : String) = "ignored" ∧ (true : Bool) = false)) :=
  c2_evaluate_agent "MONITOR" "traded" true (by simp) (by simp)

/-! ## C6 theorems -/

/-- A threshold is below a left fold of `max` iff it is below the seed or
below some list element. -/
theorem le_foldl_max_iff (t x : ℚ) (xs : List ℚ) :
    t ≤ xs.foldl max x ↔ (t ≤ x ∨ ∃ r ∈ xs, t ≤ r) := by
  induction xs generalizing x with
  | nil => simp
  | cons y ys ih =>
    rw [List.foldl_cons, ih]
    simp only [le_max_iff, List.mem_cons]
    constructor
    · rintro ((h | h) | ⟨r, hr, hle⟩)
      · exact Or.inl h
      · exact Or.inr ⟨y, Or.inl rfl, h⟩
      · exact Or.inr ⟨r, Or.inr hr, hle⟩
    · rintro (h | ⟨r, (rfl | hr), hle⟩)
      · exact Or.inl (Or.inl h)
      · exact Or.inl (Or.inr hle)
      · exact Or.inr ⟨r, hr, hle⟩

/-- A threshold is below the `WithBot` fold (missing returns as `⊥`) iff
some recorded return reaches it. -/
theorem le_foldr_max_bot_iff (t : ℚ) (l : List (Option ℚ)) :
    (t : WithBot ℚ) ≤
        (l.map (fun o => o.elim ⊥ (fun r => (r : WithBot ℚ)))).foldr max ⊥ ↔
      ∃ o ∈ l, ∃ r, o = some r ∧ t ≤ r := by
  induction l with
  | nil => simp
  | cons o os ih =>
    cases o with
    | none =>
      rw [List.map_cons, List.foldr_cons,
        show (Option.elim (none : Option ℚ) (⊥ : WithBot ℚ)
          (fun r => (r : WithBot ℚ))) = ⊥ from rfl,
        max_eq_right bot_le, ih]
      constructor
      · rintro ⟨o, ho, r, rfl, hle⟩
        exact ⟨some r, List.mem_cons_of_mem _ ho, r, rfl, hle⟩
      · rintro ⟨o, ho, r, rfl, hle⟩
        rcases List.mem_cons.mp ho with h | h
        · exact absurd h (by simp)
        · exact ⟨some r, h, r, rfl, hle⟩
    | some v =>
      rw [List.map_cons, List.foldr_cons,
        show (Option.elim (some v) (⊥ : WithBot ℚ)
          (fun r => (r : WithBot ℚ))) = (v : WithBot ℚ) from rfl,
        le_max_iff, ih, WithBot.coe_le_coe]
      constructor
      · rintro (h | ⟨o, ho, r, rfl, hle⟩)
        · exact ⟨some v, List.mem_cons_self _ _, v, rfl, h⟩
        · exact ⟨some r, List.mem_cons_of_mem _ ho, r, rfl, hle⟩
      · rintro ⟨o, ho, r, rfl, hle⟩
        rcases List.mem_cons.mp ho with h | h
        · simp only [Option.some.injEq] at h
          subst h
          exact Or.inl hle
        · exact Or.inr ⟨some r, h, r, rfl, hle⟩

/-- C6: `was_profitable` is exactly "the max of the recorded forward
returns, with a missing interval counting as `−∞`, reaches
`PROFITABLE_THRESHOLD`"; with every interval missing it is `false`. -/
theorem c6_was_profitable (returns : List (Option ℚ)) :
    (wasProfitable returns = true ↔
      (PROFITABLE_THRESHOLD : WithBot ℚ) ≤
        (returns.map (fun o => o.elim ⊥ (fun r => (r : WithBot ℚ)))).foldr max ⊥) ∧
    ((∀ o ∈ returns, o = none) → wasProfitable returns = false) := by
  have key : wasProfitable returns = true ↔
      ∃ o ∈ returns, ∃ r, o = some r ∧ PROFITABLE_THRESHOLD ≤ r := by
    unfold wasProfitable
    simp only [ge_iff_le, decide_eq_true_eq]
    rcases hrec : returns.reduceOption with _ | ⟨x, xs⟩
    · simp only [listMaxD0]
      constructor
      · intro h
        exact absurd h (by norm_num [PROFITABLE_THRESHOLD])
      · rintro ⟨o, ho, r, rfl, hle⟩
        have : r ∈ returns.reduceOption := List.reduceOption_mem_iff.mpr ho
        rw [hrec] at this
        exact absurd this (by simp)
    · simp only [listMaxD0]
      rw [le_foldl_max_iff]
      constructor
      · rintro (h | ⟨r, hr, hle⟩)
        · have : x ∈ returns.reduceOption := by rw [hrec]; exact List.mem_cons_self _ _
          exact ⟨some x, List.reduceOption_mem_iff.mp this, x, rfl, h⟩
        · have : r ∈ returns.reduceOption := by rw [hrec]; exact List.mem_cons_of_mem _ hr
          exact ⟨some r, List.reduceOption_mem_iff.mp this, r, rfl, hle⟩
      · rintro ⟨o, ho, r, rfl, hle⟩
        have : r ∈ returns.reduceOption := List.reduceOption_mem_iff.mpr ho
        rw [hrec] at this
        rcases List.mem_cons.mp this with rfl | hr
        · exact Or.inl hle
        · exact Or.inr ⟨r, hr, hle⟩
  constructor
  · rw [key, le_foldr_max_bot_iff]
  · intro hall
    rcases h : wasProfitable returns with _ | _
    · rfl
    · obtain ⟨o, ho, r, rfl, _⟩ := key.mp h
      exact absurd (hall _ ho) (by simp)

/-- C6 witness: with both interval fetches failed the outcome is not
profitable. -/
theorem c6_was_profitable_witness : wasProfitable [none, none] = false :=
  (c6_was_profitable [none, none]).2 (by simp)

/-! ## Weighted-mean helper lemmas -/

/-- A sum of pairwise products of nonnegative weights with values in
[0,1] is nonnegative and at most the sum of the weights. -/
theorem zipWith_mul_sum_bounds (ws vs : List ℝ)
    (hw : ∀ w ∈ ws, 0 ≤ w) (hv : ∀ v ∈ vs, 0 ≤ v ∧ v ≤ 1) :
    0 ≤ (List.zipWith (fun w v => w * v) ws vs).sum ∧
      (List.zipWith (fun w v => w * v) ws vs).sum ≤ ws.sum := by
  induction ws generalizing vs with
  | nil => simp
  | cons w ws ih =>
    cases vs with
    | nil =>
      simp only [List.zipWith_nil_right, List.sum_nil, List.sum_cons]
      have h0 : (0 : ℝ) ≤ w := hw w (List.mem_cons_self _ _)
      have hsum : (0 : ℝ) ≤ ws.sum :=
        List.sum_nonneg (fun x hx => hw x (List.mem_cons_of_mem _ hx))
      exact ⟨le_refl 0, by linarith⟩
    | cons v vs =>
      obtain ⟨ih1, ih2⟩ := ih vs (fun x hx => hw x (List.mem_cons_of_mem _ hx))
        (fun x hx => hv x (List.mem_cons_of_mem _ hx))
      simp only [List.zipWith_cons_cons, List.sum_cons]
      have hw0 : 0 ≤ w := hw w (List.mem_cons_self _ _)
      obtain ⟨hv0, hv1⟩ := hv v (List.mem_cons_self _ _)
      have hmul0 : 0 ≤ w * v := mul_nonneg hw0 hv0
      have hmul1 : w * v ≤ w := by nlinarith
      exact ⟨by linarith, by linarith⟩

/-- `_weighted_mean` lands in [0,1] whenever the recorded values do. -/
theorem weightedMean_bounds (values : List ℚ)
    (hv : ∀ v ∈ values, 0 ≤ v ∧ v ≤ 1) :
    0 ≤ weightedMean values ∧ weightedMean values ≤ 1 := by
  unfold weightedMean
  split
  · norm_num
  · rename_i hne
    have hwpos : ∀ w ∈ weightedMeanWeights values.length, 0 < w := by
      intro w hw
      unfold weightedMeanWeights at hw
      rw [List.mem_reverse] at hw
      obtain ⟨i, _, rfl⟩ := List.mem_map.mp hw
      exact Real.exp_pos _
    have hlen : (weightedMeanWeights values.length).length = values.length := by
      unfold weightedMeanWeights
      rw [List.length_reverse, List.length_map, List.length_range]
    have hsumpos : 0 < (weightedMeanWeights values.length).sum := by
      apply List.sum_pos _ hwpos
      intro hnil
      have := congrArg List.length hnil
      rw [hlen, List.length_nil] at this
      exact hne (List.length_eq_zero.mp this)
    have hmv : ∀ v ∈ values.map (fun q : ℚ => (q : ℝ)), 0 ≤ v ∧ v ≤ 1 := by
      intro v hvm
      obtain ⟨q, hq, rfl⟩ := List.mem_map.mp hvm
      obtain ⟨h0, h1⟩ := hv q hq
      exact ⟨by exact_mod_cast h0, by exact_mod_cast h1⟩
    obtain ⟨h1, h2⟩ := zipWith_mul_sum_bounds (weightedMeanWeights values.length)
      (values.map (fun q : ℚ => (q : ℝ)))
      (fun w hw => (hwpos w hw).le) hmv
    constructor
    · exact div_nonneg h1 hsumpos.le
    · rw [div_le_one hsumpos]
      exact h2

/-! ## C5 theorems -/

/-- C5 counterexample: the weighted success rate actually used by the
Causal Learner's context confidence is `_weighted_mean`, whose positional
`exp` weights do not agree with the claimed `0.5^(age_days/halflife)`
timestamp decay.  For the recorded history [success, failure] — stored by
the learner as the values `[1, 0]` — with the outcomes aged 30 and 0 days
and the default 30-day half-life, `_weighted_mean` yields
`e⁻¹/(e⁻¹+1)` while the claimed decay-weighted fraction is `1/3`; they
differ because `e ≠ 2`. -/
theorem c5_counterexample :
    weightedMean [1, 0] ≠ weightedSuccessRate 30 [(30, true), (0, false)] := by
  have hL : weightedMean [1, 0] =
      Real.exp (-1) / (Real.exp (-1) + 1) := by
    unfold weightedMean weightedMeanWeights
    rw [if_neg (by simp)]
    norm_num [List.range_succ, Real.exp_zero]
  have hR : weightedSuccessRate 30 [(30, true), (0, false)] = 1 / 3 := by
    unfold weightedSuccessRate decayWeight
    have h30 : (30 : ℝ) / 30 = 1 := by norm_num
    have h0 : (0 : ℝ) / 30 = 0 := by norm_num
    rw [if_neg (by simp)]
    simp only [List.map_cons, List.map_nil, List.sum_cons, List.sum_nil, h30, h0,
      Real.rpow_one, Real.rpow_zero]
    norm_num
  rw [hL, hR]
  intro h
  have h2 : (2 : ℝ) < Real.exp 1 := by
    have := Real.exp_one_gt_d9
    linarith
  have hep : (0 : ℝ) < Real.exp 1 := Real.exp_pos 1
  have hE : Real.exp (-1) < 1 / 2 := by
    rw [Real.exp_neg, inv_eq_one_div, div_lt_div_iff₀ hep (by norm_num)]
    linarith
  have hpos : 0 < Real.exp (-1) := Real.exp_pos _
  rw [div_eq_div_iff (by linarith) (by norm_num)] at h
  linarith

/-- C5 (amended): the `0.5^(age_days/halflife)` timestamp decay is
implemented by `ConfidenceDecay.weighted_success_rate`: the newest
observation (age 0) has weight exactly 1.0, the weight halves every
half-life (default 30 days), and the decay-weighted fraction of successes
lies in [0,1].  The Causal Learner's context confidence instead uses the
timestamp-free positional weighting `_weighted_mean`, whose result also
lies in [0,1] whenever the recorded values do. -/
theorem c5_decay_amended :
    decayWeight 30 0 = 1 ∧
    (∀ d : ℝ, decayWeight 30 (d + 30) = decayWeight 30 d / 2) ∧
    (∀ outcomes : List (ℝ × Bool),
      0 ≤ weightedSuccessRate 30 outcomes ∧ weightedSuccessRate 30 outcomes ≤ 1) ∧
    (∀ values : List ℚ, (∀ v ∈ values, 0 ≤ v ∧ v ≤ 1) →
      0 ≤ weightedMean values ∧ weightedMean values ≤ 1) := by
  refine ⟨?_, ?_, ?_, weightedMean_bounds⟩
  · unfold decayWeight
    norm_num
  · intro d
    unfold decayWeight
    rw [show (d + 30) / 30 = d / 30 + 1 by ring,
      Real.rpow_add (by norm_num), Real.rpow_one]
    ring
  · intro outcomes
    unfold weightedSuccessRate
    split
    · norm_num
    · split
      · norm_num
      · rename_i hne hnz
        clear hne
        have hwnn : ∀ o ∈ outcomes, (0 : ℝ) ≤ decayWeight 30 o.1 := by
          intro o _
          unfold decayWeight
          positivity
        have hnum0 : 0 ≤ (outcomes.map
            (fun o => decayWeight 30 o.1 * (if o.2 then (1 : ℝ) else 0))).sum := by
          apply List.sum_nonneg
          intro x hx
          obtain ⟨o, ho, rfl⟩ := List.mem_map.mp hx
          have hw := hwnn o ho
          split
          · rw [mul_one]; exact hw
          · rw [mul_zero]
        have hden0 : 0 ≤ (outcomes.map (fun o => decayWeight 30 o.1)).sum := by
          apply List.sum_nonneg
          intro x hx
          obtain ⟨o, ho, rfl⟩ := List.mem_map.mp hx
          exact hwnn o ho
        have hdenpos : 0 < (outcomes.map (fun o => decayWeight 30 o.1)).sum :=
          lt_of_le_of_ne hden0 (Ne.symm hnz)
        have hle : (outcomes.map
            (fun o => decayWeight 30 o.1 * (if o.2 then (1 : ℝ) else 0))).sum ≤
            (outcomes.map (fun o => decayWeight 30 o.1)).sum := by
          apply List.sum_le_sum
          intro o ho
          have hw := hwnn o ho
          split
          · rw [mul_one]
          · rw [mul_zero]; exact hw
        exact ⟨div_nonneg hnum0 hdenpos.le, by rw [div_le_one hdenpos]; exact hle⟩

/-- C5 witness: the `_weighted_mean` range bound of the amended theorem at
the concrete value list `[1, 0]`. -/
theorem c5_decay_amended_witness :
    0 ≤ weightedMean [1, 0] ∧ weightedMean [1, 0] ≤ 1 :=
  c5_decay_amended.2.2.2 [1, 0] (by norm_num)

/-! ## Context-confidence helper lemmas -/

/-- A successful association-list lookup returns the value of some stored
pair. -/
theorem lookup_mem {α : Type} {m : List (String × α)} {k : String} {v : α}
    (h : lookup m k = some v) : ∃ p ∈ m, p.2 = v := by
  unfold lookup at h
  rw [Option.map_eq_some'] at h
  obtain ⟨p, hfind, hv⟩ := h
  exact ⟨p, List.mem_of_find?_eq_some hfind, hv⟩

/-- Every factor assembled by `get_context_confidence` lies in [0,1],
given that the stored `context_success` floats do. -/
theorem contextFactors_bounds (L : CausalLearner) (pattern : String)
    (ctx : RegimeContext) (hL : ValuesBounded L) :
    ∀ f ∈ contextFactors L pattern ctx, 0 ≤ f ∧ f ≤ 1 := by
  intro f hf
  unfold contextFactors at hf
  rw [List.mem_append] at hf
  rcases hf with hf | hf
  · split at hf
    · rename_i outs heq
      split at hf
      · rcases List.mem_singleton.mp hf with rfl
        apply weightedMean_bounds
        intro v hv
        obtain ⟨p, hp, hpe⟩ := lookup_mem heq
        exact hL p hp v (hpe ▸ hv)
      · exact absurd hf (List.not_mem_nil f)
    · exact absurd hf (List.not_mem_nil f)
  · split at hf
    · rename_i outs heq
      split at hf
      · rcases List.mem_singleton.mp hf with rfl
        apply weightedMean_bounds
        intro v hv
        obtain ⟨b, _, rfl⟩ := List.mem_map.mp hv
        rcases b <;> norm_num
      · exact absurd hf (List.not_mem_nil f)
    · exact absurd hf (List.not_mem_nil f)

/-- With bounded stored values, the context-confidence multiplier never
exceeds 1.1: either there are no factors (multiplier exactly 1.0) or it is
`exp(mean(log(f + 0.1)))` with every `f + 0.1 ≤ 1.1`. -/
theorem getContextConfidence_le (L : CausalLearner) (pattern : String)
    (ctx : RegimeContext) (hL : ValuesBounded L) :
    (getContextConfidence L pattern ctx).1 ≤ 1.1 := by
  unfold getContextConfidence
  by_cases hf : contextFactors L pattern ctx = []
  · rw [if_pos hf]
    norm_num
  · rw [if_neg hf]
    have hmem := contextFactors_bounds L pattern ctx hL
    have hlen : 0 < (contextFactors L pattern ctx).length :=
      List.length_pos.mpr hf
    have hlog : ∀ x ∈ (contextFactors L pattern ctx).map
        (fun f => Real.log (f + 0.1)), x ≤ Real.log 1.1 := by
      intro x hx
      obtain ⟨f, hfm, rfl⟩ := List.mem_map.mp hx
      obtain ⟨h0, h1⟩ := hmem f hfm
      rw [Real.log_le_log_iff (by linarith) (by norm_num)]
      linarith
    have hsum := List.sum_le_card_nsmul _ _ hlog
    rw [List.length_map, nsmul_eq_mul] at hsum
    have hdiv : ((contextFactors L pattern ctx).map
        (fun f => Real.log (f + 0.1))).sum /
        ((contextFactors L pattern ctx).length : ℝ) ≤ Real.log 1.1 := by
      rw [div_le_iff₀ (by exact_mod_cast hlen)]
      linarith [hsum]
    calc Real.exp _ ≤ Real.exp (Real.log 1.1) := Real.exp_le_exp.mpr hdiv
      _ = 1.1 := Real.exp_log (by norm_num)

/-! ## C4 theorems -/

/-- C4 counterexample: with no recorded history the context-confidence
multiplier is 1.0, not 0.5, so the composite regime component is 1, not
0.5. -/
theorem c4_counterexample :
    (getContextConfidence emptyLearner "volume_spike" defaultContext).1 = 1 ∧
    (confidenceCalculate emptyLearner 3 "volume_spike" defaultContext
      none 50 0).regime = 1 ∧
    (1 : ℝ) ≠ 0.5 := by
  have hf : contextFactors emptyLearner "volume_spike" defaultContext = [] := rfl
  have h1 : (getContextConfidence emptyLearner "volume_spike" defaultContext).1 = 1 := by
    unfold getContextConfidence
    rw [if_pos hf]
    norm_num
  refine ⟨h1, ?_, by norm_num⟩
  show calcRegime emptyLearner "volume_spike" defaultContext = 1
  unfold calcRegime
  rw [h1]
  norm_num

/-- C4 (amended): when neither the context key (minimum sample 5) nor the
regime key (minimum sample 3) has enough recorded history, the Causal
Learner's multiplier falls back to 1.0 — not 0.5 — and the composite
regime component is therefore 1.0 (the clamp of 1.0). -/
theorem c4_fallback_amended (L : CausalLearner) (pattern : String)
    (ctx : RegimeContext) (z : ℝ) (history : Option PatternQuality)
    (dp cs : ℕ)
    (hc : ∀ outcomes, lookup L.context_success
      (pattern ++ "|" ++ ctx.regime.value ++ "|" ++ ctx.horizon.value) =
        some outcomes → outcomes.length < 5)
    (hr : ∀ outcomes, lookup L.regime_patterns
      (pattern ++ "|" ++ ctx.regime.value) = some outcomes →
        outcomes.length < 3) :
    (getContextConfidence L pattern ctx).1 = 1 ∧
    (confidenceCalculate L z pattern ctx history dp cs).regime = 1 := by
  have hf : contextFactors L pattern ctx = [] := by
    unfold contextFactors
    rw [List.append_eq_nil]
    constructor
    · split
      · rename_i outs heq
        rw [if_neg (not_le.mpr (hc outs heq))]
      · rfl
    · split
      · rename_i outs heq
        rw [if_neg (not_le.mpr (hr outs heq))]
      · rfl
  have h1 : (getContextConfidence L pattern ctx).1 = 1 := by
    unfold getContextConfidence
    rw [if_pos hf]
    norm_num
  refine ⟨h1, ?_⟩
  show calcRegime L pattern ctx = 1
  unfold calcRegime
  rw [h1]
  norm_num

/-- C4 witness: the amended fallback at the empty learner. -/
theorem c4_fallback_amended_witness :
    (getContextConfidence emptyLearner "price_momentum" defaultContext).1 = 1 ∧
    (confidenceCalculate emptyLearner 3 "price_momentum" defaultContext
      none 30 1).regime = 1 :=
  c4_fallback_amended emptyLearner "price_momentum" defaultContext 3 none 30 1
    (fun outs h => by simp [lookup, emptyLearner] at h)
    (fun outs h => by simp [lookup, emptyLearner] at h)

/-- `record_outcome` only appends the floats 1.0 / 0.0, so `ValuesBounded`
is an invariant of every reachable learner state. -/
theorem recordOutcome_preserves_bounds (L : CausalLearner) (p : String)
    (ctx : RegimeContext) (s : Bool) (hL : ValuesBounded L) :
    ValuesBounded (recordOutcome L p ctx s) := by
  have hval : (0 : ℚ) ≤ (if s then (1 : ℚ) else 0) ∧
      (if s then (1 : ℚ) else 0) ≤ 1 := by
    cases s <;> norm_num
  intro q hq v hv
  simp only [recordOutcome] at hq
  unfold appendAt at hq
  split at hq
  · obtain ⟨q0, hq0, hq0e⟩ := List.mem_map.mp hq
    by_cases hk : (q0.1 ==
        (p ++ "|" ++ ctx.regime.value ++ "|" ++ ctx.horizon.value)) = true
    · rw [if_pos hk] at hq0e
      subst hq0e
      rcases List.mem_append.mp hv with hv | hv
      · exact hL q0 hq0 v hv
      · rcases List.mem_singleton.mp hv with rfl
        exact hval
    · rw [if_neg hk] at hq0e
      subst hq0e
      exact hL q0 hq0 v hv
  · rcases List.mem_append.mp hq with hq | hq
    · exact hL q hq v hv
    · rcases List.mem_singleton.mp hq with rfl
      rcases List.mem_singleton.mp hv with rfl
      exact hval

/-- The empty learner trivially satisfies the bound invariant. -/
theorem emptyLearner_bounds : ValuesBounded emptyLearner :=
  fun q hq => absurd hq (List.not_mem_nil q)

/-! ## C10 theorems -/

/-- C10: on [2.0, 5.0] the suggested threshold never drops below the
current one: the context confidence is at most 1.1, so the
"favorable context, lower threshold" branch (trigger 1.2) is unreachable,
and the raise / keep branches followed by the [2.0, 5.0] clamp can only
return a value ≥ the current threshold. -/
theorem c10_threshold_monotone (L : CausalLearner) (pattern : String)
    (ctx : RegimeContext) (ct : ℝ) (hL : ValuesBounded L)
    (h2 : 2 ≤ ct) (h5 : ct ≤ 5) :
    (getContextConfidence L pattern ctx).1 ≤ 1.1 ∧
    ct ≤ (suggestThresholdAdjustment L pattern ctx ct).1 := by
  have hconf := getContextConfidence_le L pattern ctx hL
  refine ⟨hconf, ?_⟩
  simp only [suggestThresholdAdjustment]
  split_ifs with hgt hlt <;> dsimp only
  · exact absurd hgt (by norm_num; linarith)
  · refine le_trans (le_min h5 (by nlinarith)) (le_max_right _ _)
  · refine le_trans (le_min h5 le_rfl) (le_max_right _ _)

/-- C10 witness: at the empty learner with current threshold 3 the
suggestion is at least 3. -/
theorem c10_threshold_monotone_witness :
    (getContextConfidence emptyLearner "volume_spike" defaultContext).1 ≤ 1.1 ∧
    (3 : ℝ) ≤ (suggestThresholdAdjustment emptyLearner "volume_spike"
      defaultContext 3).1 :=
  c10_threshold_monotone emptyLearner "volume_spike" defaultContext 3
    (fun p hp => absurd hp (List.not_mem_nil p)) (by norm_num) (by norm_num)

/-! ## C7 theorems -/

/-- The [0,1] clamp used for the statistical and regime components. -/
theorem clamp01_bounds (x : ℝ) : 0 ≤ min 1 (max 0 x) ∧ min 1 (max 0 x) ≤ 1 :=
  ⟨le_min zero_le_one (le_max_left 0 x), min_le_left _ _⟩

/-- The behavioral component lies in [0,1] when the history rates do. -/
theorem calcBehavioral_bounds (history : Option PatternQuality)
    (hh : ∀ q, history = some q → 0 ≤ q.accuracy ∧ q.accuracy ≤ 1 ∧
      0 ≤ q.trade_rate ∧ q.trade_rate ≤ 1 ∧
      0 ≤ q.agent_accuracy ∧ q.agent_accuracy ≤ 1) :
    0 ≤ calcBehavioral history ∧ calcBehavioral history ≤ 1 := by
  unfold calcBehavioral
  cases history with
  | none => norm_num
  | some q =>
    obtain ⟨a0, a1, t0, t1, g0, g1⟩ := hh q rfl
    dsimp only
    split
    · constructor <;> nlinarith
    · norm_num

/-- The data-quality component lies in [0,1]. -/
theorem calcDataQuality_bounds (dp : ℕ) :
    0 ≤ calcDataQuality dp ∧ calcDataQuality dp ≤ 1 := by
  unfold calcDataQuality
  split_ifs <;> norm_num

/-- The uncertainty penalty lies in [0,1]. -/
theorem calcUncertainty_bounds (ctx : RegimeContext)
    (history : Option PatternQuality) (cs : ℕ) :
    0 ≤ calcUncertainty ctx history cs ∧ calcUncertainty ctx history cs ≤ 1 := by
  unfold calcUncertainty
  refine ⟨le_min zero_le_one ?_, min_le_left _ _⟩
  have h1 : (0 : ℝ) ≤ (if ctx.regime = MarketRegime.unknown then 0.2 else 0) := by
    split <;> norm_num
  have h2 : (0 : ℝ) ≤ (match history with
      | none => (0.15 : ℝ)
      | some h => if h.sample_size < 10 then 0.15 else 0) := by
    cases history with
    | none => norm_num
    | some q =>
      dsimp only
      split <;> norm_num
  have h3 : (0 : ℝ) ≤ (if cs > 0 then 0.1 * ((min cs 3 : ℕ) : ℝ) else 0) := by
    split
    · positivity
    · exact le_refl 0
  have h4 : (0 : ℝ) ≤ (if ctx.volatility_percentile > 80 then (0.1 : ℝ) else 0) := by
    split <;> norm_num
  linarith

/-- C7: the composite confidence lies in [0,1] and never exceeds the
0.25/0.30/0.25/0.20 weighted sum of its components: the uncertainty
penalty can only shrink the score. -/
theorem c7_composite_bounds (L : CausalLearner) (z : ℝ) (pattern : String)
    (ctx : RegimeContext) (history : Option PatternQuality) (dp cs : ℕ)
    (hh : ∀ q, history = some q → 0 ≤ q.accuracy ∧ q.accuracy ≤ 1 ∧
      0 ≤ q.trade_rate ∧ q.trade_rate ≤ 1 ∧
      0 ≤ q.agent_accuracy ∧ q.agent_accuracy ≤ 1) :
    0 ≤ (confidenceCalculate L z pattern ctx history dp cs).composite ∧
    (confidenceCalculate L z pattern ctx history dp cs).composite ≤ 1 ∧
    (confidenceCalculate L z pattern ctx history dp cs).composite ≤
      0.25 * (confidenceCalculate L z pattern ctx history dp cs).statistical +
      0.30 * (confidenceCalculate L z pattern ctx history dp cs).behavioral +
      0.25 * (confidenceCalculate L z pattern ctx history dp cs).regime +
      0.20 * (confidenceCalculate L z pattern ctx history dp cs).data_quality := by
  have hs : 0 ≤ calcStatistical z ∧ calcStatistical z ≤ 1 := clamp01_bounds _
  have hb := calcBehavioral_bounds history hh
  have hr : 0 ≤ calcRegime L pattern ctx ∧ calcRegime L pattern ctx ≤ 1 :=
    clamp01_bounds _
  have hd := calcDataQuality_bounds dp
  have hu := calcUncertainty_bounds ctx history cs
  obtain ⟨s0, s1⟩ := hs
  obtain ⟨b0, b1⟩ := hb
  obtain ⟨r0, r1⟩ := hr
  obtain ⟨d0, d1⟩ := hd
  obtain ⟨u0, u1⟩ := hu
  simp only [confidenceCalculate, mkCompositeConfidence]
  have hraw0 : (0 : ℝ) ≤ 0.25 * calcStatistical z + 0.30 * calcBehavioral history +
      0.25 * calcRegime L pattern ctx + 0.20 * calcDataQuality dp := by linarith
  have hraw1 : 0.25 * calcStatistical z + 0.30 * calcBehavioral history +
      0.25 * calcRegime L pattern ctx + 0.20 * calcDataQuality dp ≤ 1 := by linarith
  have hfac0 : (0 : ℝ) ≤ 1 - calcUncertainty ctx history cs * 0.5 := by linarith
  have hfac1 : 1 - calcUncertainty ctx history cs * 0.5 ≤ 1 := by linarith
  refine ⟨mul_nonneg hraw0 hfac0, ?_, mul_le_of_le_one_right hraw0 hfac1⟩
  calc (0.25 * calcStatistical z + 0.30 * calcBehavioral history +
      0.25 * calcRegime L pattern ctx + 0.20 * calcDataQuality dp) *
      (1 - calcUncertainty ctx history cs * 0.5) ≤
      (0.25 * calcStatistical z + 0.30 * calcBehavioral history +
        0.25 * calcRegime L pattern ctx + 0.20 * calcDataQuality dp) * 1 :=
        mul_le_mul_of_nonneg_left hfac1 hraw0
    _ ≤ 1 := by linarith

/-- C7 witness: concrete bounds at a supplied history row with rates in
[0,1]. -/
theorem c7_composite_bounds_witness :
    0 ≤ (confidenceCalculate emptyLearner 3 "volume_spike" defaultContext
      (some ⟨"volume_spike", "TEST", 0.7, 0.5, 0.5, 0.01, 30, 0.6⟩) 50 0).composite ∧
    (confidenceCalculate emptyLearner 3 "volume_spike" defaultContext
      (some ⟨"volume_spike", "TEST", 0.7, 0.5, 0.5, 0.01, 30, 0.6⟩) 50 0).composite ≤ 1 ∧
    (confidenceCalculate emptyLearner 3 "volume_spike" defaultContext
      (some ⟨"volume_spike", "TEST", 0.7, 0.5, 0.5, 0.01, 30, 0.6⟩) 50 0).composite ≤
      0.25 * (confidenceCalculate emptyLearner 3 "volume_spike" defaultContext
        (some ⟨"volume_spike", "TEST", 0.7, 0.5, 0.5, 0.01, 30, 0.6⟩) 50 0).statistical +
      0.30 * (confidenceCalculate emptyLearner 3 "volume_spike" defaultContext
        (some ⟨"volume_spike", "TEST", 0.7, 0.5, 0.5, 0.01, 30, 0.6⟩) 50 0).behavioral +
      0.25 * (confidenceCalculate emptyLearner 3 "volume_spike" defaultContext
        (some ⟨"volume_spike", "TEST", 0.7, 0.5, 0.5, 0.01, 30, 0.6⟩) 50 0).regime +
      0.20 * (confidenceCalculate emptyLearner 3 "volume_spike" defaultContext
        (some ⟨"volume_spike", "TEST", 0.7, 0.5, 0.5, 0.01, 30, 0.6⟩) 50 0).data_quality :=
  c7_composite_bounds emptyLearner 3 "volume_spike" defaultContext
    (some ⟨"volume_spike", "TEST", 0.7, 0.5, 0.5, 0.01, 30, 0.6⟩) 50 0
    (by intro q hq; cases hq; norm_num)

/-! ## C3 theorems -/

/-- C3: whenever `_make_decision` returns the EXECUTE state, the composite
confidence is at least 0.75, the z-score at least 4.0, and the decision is
not rejected. -/
theorem c3_execute_gate (L : CausalLearner) (z : ℝ) (pattern : String)
    (confidence : CompositeConfidence) (ctx : RegimeContext)
    (history : Option PatternQuality)
    (h : (makeDecision L z pattern confidence ctx history).state =
      DecisionState.EXECUTE) :
    confidence.composite ≥ 0.75 ∧ z ≥ 4.0 ∧
      (makeDecision L z pattern confidence ctx history).rejected = false := by
  unfold makeDecision at h ⊢
  split_ifs at h ⊢ with h1 h2 h3 h4 h5 h6 h7 h8
  all_goals simp_all

/-- C3 witness: a concrete EXECUTE decision (composite 0.8, z = 5, known
regime history, clean data) satisfies the gate. -/
theorem c3_execute_gate_witness :
    executeConfidence.composite ≥ 0.75 ∧ (5 : ℝ) ≥ 4.0 ∧
      (makeDecision seededLearner 5 "volume_spike" executeConfidence
        defaultContext none).rejected = false := by
  apply c3_execute_gate
  unfold makeDecision
  rw [if_neg (fun hfalse => False.elim hfalse),
    if_neg (fun hand => hand.1 rfl),
    if_neg (by norm_num [executeConfidence, mkCompositeConfidence] :
      ¬ executeConfidence.data_quality < 0.5),
    if_neg (by norm_num [executeConfidence, mkCompositeConfidence] :
      ¬ executeConfidence.uncertainty ≥ 0.4),
    if_neg (by decide),
    if_pos (show executeConfidence.composite ≥ 0.75 ∧ (5 : ℝ) ≥ 4.0 from
      ⟨by norm_num [executeConfidence, mkCompositeConfidence], by norm_num⟩)]

/-! ## Detector helper lemmas -/

/-- Dropping the last element of a nonempty replicate. -/
theorem dropLast_replicate {α : Type} (n : ℕ) (a : α) :
    (List.replicate (n + 1) a).dropLast = List.replicate n a := by
  rw [List.replicate_succ' n a, List.dropLast_concat]

/-- Zipping two replicates truncates to the shorter one. -/
theorem zip_replicate_min {α β : Type} (m n : ℕ) (a : α) (b : β) :
    (List.replicate m a).zip (List.replicate n b) =
      List.replicate (min m n) (a, b) := by
  induction m generalizing n with
  | zero => simp
  | succ m ih =>
    cases n with
    | zero => simp
    | succ n =>
      simp only [List.replicate_succ, List.zip_cons_cons, ih,
        Nat.succ_min_succ]

/-- A constant series has zero (population) standard deviation. -/
theorem npStd_replicate (n : ℕ) (c : ℝ) (hn : n ≠ 0) :
    npStd (List.replicate n c) = 0 := by
  have hmean : npMean (List.replicate n c) = c := by
    unfold npMean
    rw [List.sum_replicate, List.length_replicate, nsmul_eq_mul]
    field_simp
  unfold npStd
  simp only [hmean]
  rw [List.map_replicate]
  norm_num
  unfold npMean
  rw [List.sum_replicate, List.length_replicate]
  simp

/-! ## C9 theorems -/

/-- C9: a zero standard deviation of the reference series makes the
corresponding test emit nothing — in the source (and in this embedding)
the σ = 0 guard precedes the division by σ. -/
theorem c9_zero_sigma (cfg : DetectionThresholds) (symbol : String)
    (data : List Bar) (now : ℤ) (uid : String) :
    (npStd ((data.map (fun b => b.volume)).dropLast) = 0 →
      detectVolumeSpike cfg symbol data now uid = none) ∧
    (npStd ((pctReturns data).dropLast) = 0 →
      detectPriceMomentum cfg symbol data now uid = none) ∧
    (npStd ((rangePcts data).dropLast) = 0 →
      detectVolatilitySurge cfg symbol data now uid = none) := by
  refine ⟨?_, ?_, ?_⟩
  · intro h
    unfold detectVolumeSpike
    simp only [detectVolumeSpikeArgs]
    split_ifs with h1 h2 h3 <;>
      first
        | rfl
        | exact absurd (Or.inl h) h2
  · intro h
    unfold detectPriceMomentum
    simp only [detectPriceMomentumArgs]
    split_ifs <;> rfl
  · intro h
    unfold detectVolatilitySurge
    simp only [detectVolatilitySurgeArgs]
    split_ifs <;> rfl

/-- C9 witness: on the fully constant window all three tests emit
nothing. -/
theorem c9_zero_sigma_witness :
    detectVolumeSpike defaultThresholds "TEST" flatWindow 0 "u" = none ∧
    detectPriceMomentum defaultThresholds "TEST" flatWindow 0 "u" = none ∧
    detectVolatilitySurge defaultThresholds "TEST" flatWindow 0 "u" = none := by
  have h := c9_zero_sigma defaultThresholds "TEST" flatWindow 0 "u"
  have hcl : flatWindow.map (fun b => b.close) = List.replicate 21 (100 : ℝ) := by
    simp [flatWindow, constBar]
  refine ⟨h.1 ?_, h.2.1 ?_, h.2.2 ?_⟩
  · have hv : flatWindow.map (fun b => b.volume) = List.replicate 21 (5 : ℝ) := by
      simp [flatWindow, constBar]
    rw [hv, show (21 : ℕ) = 20 + 1 from rfl, dropLast_replicate]
    exact npStd_replicate 20 5 (by norm_num)
  · have hzip : ((List.replicate 21 (100 : ℝ)).zip
        (List.replicate 21 (100 : ℝ)).tail) =
        List.replicate 20 ((100 : ℝ), (100 : ℝ)) := by
      rw [show (List.replicate 21 (100 : ℝ)).tail = List.replicate 20 (100 : ℝ)
        from rfl, zip_replicate_min, show min 21 20 = 20 from rfl]
    have hret : pctReturns flatWindow = List.replicate 20 0 := by
      simp only [pctReturns]
      rw [hcl, hzip, List.map_replicate]
      norm_num
    rw [hret, show (20 : ℕ) = 19 + 1 from rfl, dropLast_replicate]
    exact npStd_replicate 19 0 (by norm_num)
  · have hr : rangePcts flatWindow = List.replicate 21 0 := by
      unfold rangePcts
      simp [flatWindow, constBar]
    rw [hr, show (21 : ℕ) = 20 + 1 from rfl, dropLast_replicate]
    exact npStd_replicate 20 0 (by norm_num)

/-! ## C8 helper evaluations -/

/-- The length of the spike window. -/
theorem spikeWindow_length : spikeWindow.length = 21 := by
  simp [spikeWindow]

/-- The volume series of the spike window. -/
theorem spikeWindow_volumes : spikeWindow.map (fun b => b.volume) =
    List.replicate 10 (1000000 : ℝ) ++ List.replicate 10 (3000000 : ℝ) ++
      [6000000] := by
  simp [spikeWindow, constBar]

/-- The reference volume mean of the spike window. -/
theorem spikeWindow_mean :
    npMean ((spikeWindow.map (fun b => b.volume)).dropLast) = 2000000 := by
  rw [spikeWindow_volumes, List.dropLast_concat]
  unfold npMean
  rw [List.sum_append, List.sum_replicate, List.sum_replicate,
    List.length_append, List.length_replicate, List.length_replicate]
  simp only [nsmul_eq_mul]
  norm_num

/-- The reference volume standard deviation of the spike window. -/
theorem spikeWindow_std :
    npStd ((spikeWindow.map (fun b => b.volume)).dropLast) = 1000000 := by
  unfold npStd
  simp only [spikeWindow_mean]
  rw [spikeWindow_volumes, List.dropLast_concat, List.map_append,
    List.map_replicate, List.map_replicate]
  have hvar : npMean (List.replicate 10 (((1000000 : ℝ) - 2000000) ^ 2) ++
      List.replicate 10 (((3000000 : ℝ) - 2000000) ^ 2)) = 1000000000000 := by
    unfold npMean
    rw [List.sum_append, List.sum_replicate, List.sum_replicate,
      List.length_append, List.length_replicate, List.length_replicate]
    simp only [nsmul_eq_mul]
    norm_num
  rw [hvar, show (1000000000000 : ℝ) = 1000000 ^ 2 by norm_num,
    Real.sqrt_sq (by norm_num)]

/-- The latest volume of the spike window. -/
theorem spikeWindow_last :
    (spikeWindow.map (fun b => b.volume)).getLast?.getD 0 = 6000000 := by
  rw [spikeWindow_volumes, List.getLast?_concat]
  rfl

/-- The volume test fires on the spike window with z = 4. -/
theorem spike_args_eval :
    detectVolumeSpikeArgs defaultThresholds "TEST" spikeWindow =
      some spikeArgs := by
  simp only [detectVolumeSpikeArgs]
  split_ifs with h1 h2 h3
  · exact absurd h1 (by rw [spikeWindow_length]; norm_num [defaultThresholds])
  · rcases h2 with h2 | h2
    · rw [spikeWindow_std] at h2
      norm_num at h2
    · rw [spikeWindow_last] at h2
      norm_num [defaultThresholds] at h2
  · rw [spikeWindow_last, spikeWindow_mean, spikeWindow_std]
    rw [show ((6000000 : ℝ) - 2000000) / 1000000 = 4 by norm_num]
    have hsev : zToSeverity 4 = Severity.high := by
      unfold zToSeverity
      rw [if_neg (by norm_num), if_pos (by norm_num)]
    have hround : round2 4 = 4 := by
      unfold round2
      rw [show (4 : ℝ) * 100 = ((400 : ℤ) : ℝ) by norm_num, round_intCast]
      norm_num
    have hprice : (spikeWindow.getLast?.getD default).close = 100 := by
      rw [show spikeWindow.getLast? = some (constBar 6000000) by
        unfold spikeWindow; rw [List.getLast?_concat]]
      rfl
    have hfloor : ⌊(6000000 : ℝ)⌋ = (6000000 : ℤ) := by
      rw [show ((6000000 : ℝ)) = ((6000000 : ℤ) : ℝ) by norm_num,
        Int.floor_intCast]
    rw [hsev, hround, hprice, hfloor]
    rfl
  · exfalso
    apply h3
    rw [spikeWindow_last, spikeWindow_mean, spikeWindow_std]
    norm_num [defaultThresholds]

/-- The momentum test does not fire on the spike window (flat prices). -/
theorem momentum_none_eval :
    detectPriceMomentumArgs defaultThresholds "TEST" spikeWindow = none := by
  have hcl : spikeWindow.map (fun b => b.close) = List.replicate 21 (100 : ℝ) := by
    unfold spikeWindow
    simp only [List.map_append, List.map_replicate, List.map_cons, List.map_nil]
    rw [show ((constBar 1000000).close) = 100 from rfl,
      show ((constBar 3000000).close) = 100 from rfl,
      show ((constBar 6000000).close) = 100 from rfl,
      show ([100] : List ℝ) = List.replicate 1 100 from rfl,
      ← List.replicate_add, ← List.replicate_add]
  have hret : pctReturns spikeWindow = List.replicate 20 0 := by
    simp only [pctReturns]
    rw [hcl, show (List.replicate 21 (100 : ℝ)).tail = List.replicate 20 (100 : ℝ)
      from rfl, zip_replicate_min, show min 21 20 = 20 from rfl,
      List.map_replicate]
    norm_num
  have hcur : (pctReturns spikeWindow).getLast?.getD 0 = 0 := by
    rw [hret, show List.replicate 20 (0 : ℝ) = List.replicate 19 0 ++ [0] by
      rw [← List.replicate_succ' 19 (0 : ℝ)], List.getLast?_concat]
    rfl
  simp only [detectPriceMomentumArgs]
  split_ifs with h1 h2 h3 h4 <;>
    first
      | rfl
      | exact absurd (by rw [hcur]; norm_num [defaultThresholds]) h2

/-- The volatility test does not fire on the spike window (too few
bars for its 30-bar minimum). -/
theorem volatility_none_eval :
    detectVolatilitySurgeArgs defaultThresholds "TEST" spikeWindow = none := by
  simp only [detectVolatilitySurgeArgs]
  rw [if_pos (by rw [spikeWindow_length]; norm_num [defaultThresholds])]

/-! ## C8 theorems -/

/-- C8 counterexample: the detector is not a pure function of the bar
window and thresholds.  On the spike window it emits a `volume_spike`
event whose `id` and `detected_at` come from the wall clock and a fresh
uuid inside `Anomaly.create`; two runs at clock values 0 and 1 differ. -/
theorem c8_counterexample : ¬ detectorPurityClaim := by
  intro h
  have heq := h defaultThresholds "TEST" spikeWindow 0 1 "u" "u"
  have hrun : ∀ now : ℤ, detect defaultThresholds "TEST" spikeWindow now "u" =
      [Anomaly.create now "u" spikeArgs] := by
    intro now
    unfold detect
    rw [if_neg (by rw [spikeWindow_length]; norm_num)]
    unfold detectVolumeSpike detectPriceMomentum detectVolatilitySurge
    rw [spike_args_eval, momentum_none_eval, volatility_none_eval]
    rfl
  rw [hrun 0, hrun 1] at heq
  have hfield := congrArg (fun l => (l.headD (Anomaly.create 0 "u" spikeArgs)).detected_at) heq
  simp only [List.headD_cons] at hfield
  exact absurd hfield (by norm_num [Anomaly.create])

/-- C8 (amended): the detector is deterministic given the bar window, the
thresholds, and the ambient clock / uuid draw: every emitted field other
than `id` and `detected_at` is a function of the window and thresholds
alone, and `id` / `detected_at` depend only additionally on the clock
instant and uuid read in `Anomaly.create`. -/
theorem c8_determinism_amended (cfg : DetectionThresholds) (symbol : String)
    (data : List Bar) (now now' : ℤ) (uid uid' : String) :
    (detect cfg symbol data now uid).map stripImpure =
      (detect cfg symbol data now' uid').map stripImpure := by
  have strip_chunk : ∀ (o : Option AnomalyArgs),
      ((o.map (Anomaly.create now uid)).toList).map stripImpure =
        ((o.map (Anomaly.create now' uid')).toList).map stripImpure := by
    intro o
    cases o <;> rfl
  unfold detect
  split_ifs
  · rfl
  · unfold detectVolumeSpike detectPriceMomentum detectVolatilitySurge
    simp only [List.map_append]
    rw [strip_chunk (detectVolumeSpikeArgs cfg symbol data),
      strip_chunk (detectPriceMomentumArgs cfg symbol data),
      strip_chunk (detectVolatilitySurgeArgs cfg symbol data)]

end FinSight
